import Mathlib

/-!
Verification development for the BlogWebApp repository: a shallow embedding
of the REST route handlers (backend/routes of blogs, comments, users) and of
the Blog model helpers (backend/models/Blog.js), together with theorems
settling the behavioural claims about likes, visibility, authorization,
comment nesting, soft deletion, follow toggling and pagination.

MongoDB ObjectIds are modelled as natural numbers; documents are records over
their schema fields; each HTTP handler becomes a pure function from the
documents it reads to an HTTP status together with the documents it writes.
-/

namespace BlogApp

/-- The role field of a User document: the enum has values user and admin. -/
inductive Role where
  | user
  | admin
deriving DecidableEq

/-- The status field of a Blog document: enum draft, published, archived. -/
inductive BlogStatus where
  | draft
  | published
  | archived
deriving DecidableEq

/-- A User document, restricted to the fields the verified routes read:
id, role, and the follower and following reference arrays. -/
structure User where
  id : Nat
  role : Role
  following : List Nat
  followers : List Nat
deriving DecidableEq

/-- A Blog document over the schema of backend/models/Blog.js (seo omitted;
createdAt stands for the timestamps option). -/
structure Blog where
  id : Nat
  title : String
  content : String
  excerpt : String
  author : Nat
  tags : List String
  category : String
  featuredImage : String
  status : BlogStatus
  isPublic : Bool
  likes : List Nat
  views : Nat
  readTime : Nat
  comments : List Nat
  createdAt : Nat
deriving DecidableEq

/-- Modelled from the spec: the Comment model file is not present in the
sources, only its routes and callers are.  The spec describes a Comment as
belonging to one Blog and one author, with an optional parentComment
reference, a likes reference array, a replies reference array maintained by
the comment-creation handler, a soft-delete flag and an edited flag. -/
structure Comment where
  id : Nat
  content : String
  author : Nat
  blog : Nat
  parentComment : Option Nat
  replies : List Nat
  likes : List Nat
  isDeleted : Bool
  isEdited : Bool
  createdAt : Nat
deriving DecidableEq

/-- The JSON body of a like-toggle or unlike response, together with the
HTTP status it is sent with. -/
structure LikeResponse where
  status : Nat
  message : String
  likeCount : Option Nat
  isLiked : Option Bool
deriving DecidableEq

/-- The pagination object every list endpoint returns. -/
structure Pagination where
  currentPage : Nat
  totalPages : Nat
  totalItems : Nat
  hasNext : Bool
  hasPrev : Bool
deriving DecidableEq

/-- The pagination object as computed by every list handler:
currentPage: page, totalPages: Math.ceil(total / limit) (exact ceiling
division on naturals), hasNext: page * limit < total, hasPrev: page > 1. -/
def mkPagination (page limit total : Nat) : Pagination :=
  { currentPage := page
    totalPages := (total + limit - 1) / limit
    totalItems := total
    hasNext := decide (page * limit < total)
    hasPrev := decide (1 < page) }

/-- The like-toggle array mutation shared by POST /api/blogs/:id/like and
POST /api/comments/:id/like: likeIndex = likes.indexOf(user id); if
likeIndex > -1 then likes.splice(likeIndex, 1) else likes.push(user id). -/
def likeToggle (likes : List Nat) (uid : Nat) : List Nat :=
  match likes.findIdx? (fun i => i == uid) with
  | some i => likes.eraseIdx i
  | none => likes ++ [uid]

/-- POST /api/blogs/:id/like: toggle the requesting user in blog.likes, save,
and respond with the message, the new likeCount and isLiked. -/
def postBlogLikeRoute (b : Blog) (u : User) : Blog × LikeResponse :=
  match b.likes.findIdx? (fun i => i == u.id) with
  | some i =>
    let b' := { b with likes := b.likes.eraseIdx i }
    (b', { status := 200, message := "Blog unliked",
           likeCount := some b'.likes.length, isLiked := some false })
  | none =>
    let b' := { b with likes := b.likes ++ [u.id] }
    (b', { status := 200, message := "Blog liked",
           likeCount := some b'.likes.length, isLiked := some true })

/-- POST /api/comments/:id/like: same toggle on comment.likes. -/
def postCommentLikeRoute (c : Comment) (u : User) : Comment × LikeResponse :=
  match c.likes.findIdx? (fun i => i == u.id) with
  | some i =>
    let c' := { c with likes := c.likes.eraseIdx i }
    (c', { status := 200, message := "Comment unliked",
           likeCount := some c'.likes.length, isLiked := some false })
  | none =>
    let c' := { c with likes := c.likes ++ [u.id] }
    (c', { status := 200, message := "Comment liked",
           likeCount := some c'.likes.length, isLiked := some true })

/-- DELETE /api/blogs/:id/like: if the user id is absent respond 400 with
message Blog is not liked and change nothing; otherwise splice the entry out,
save, and respond with the new likeCount and isLiked false. -/
def deleteBlogLikeRoute (b : Blog) (u : User) : Blog × LikeResponse :=
  match b.likes.findIdx? (fun i => i == u.id) with
  | none =>
    (b, { status := 400, message := "Blog is not liked",
          likeCount := none, isLiked := none })
  | some i =>
    let b' := { b with likes := b.likes.eraseIdx i }
    (b', { status := 200, message := "Blog unliked",
           likeCount := some b'.likes.length, isLiked := some false })

/-- The character class of the JavaScript regex \s, restricted to the ASCII
whitespace characters (space, tab, line feed, carriage return, vertical tab,
form feed). -/
def jsIsWhitespace (c : Char) : Bool :=
  c == ' ' || c == '\t' || c == '\n' || c == '\r' || c == '\u000b' || c == '\u000c'

/-- content.split(ws regex) on the character list of the content: the pieces
between maximal runs of whitespace, keeping the empty piece that JavaScript
String.prototype.split produces before a leading run and after a trailing
run; on the empty string the result is the one-element list of the empty
piece. -/
def jsSplitWS : List Char → List (List Char)
  | [] => [[]]
  | c :: rest =>
    let ps := jsSplitWS rest
    if jsIsWhitespace c then
      match rest with
      | [] => [] :: ps
      | c2 :: _ => if jsIsWhitespace c2 then ps else [] :: ps
    else
      match ps with
      | [] => [[c]]
      | p :: ps2 => (c :: p) :: ps2

/-- The word count of calculateReadTime: this.content.split(ws).length. -/
def jsWordCount (s : String) : Nat :=
  (jsSplitWS s.data).length

/-- calculateReadTime of backend/models/Blog.js:
Math.ceil(wordCount / wordsPerMinute) with wordsPerMinute 200, as exact
ceiling division on naturals. -/
def calculateReadTime (content : String) : Nat :=
  (jsWordCount content + 199) / 200

/-- Scanning helper for the tag-stripping regex: drop characters up to and
through the first greater-than sign, or report that none occurs. -/
def dropThroughGt : List Char → Option (List Char)
  | [] => none
  | c :: cs => if c == '>' then some cs else dropThroughGt cs

/-- One fuel-indexed pass of the global replacement of the regex matching a
less-than sign, any run of characters other than greater-than, then a
greater-than sign, by the empty string: at a less-than sign with a matching
greater-than sign the whole span is dropped, at one without it the scan
keeps the character and moves on; fuel bounds the number of characters
consumed, so fuel equal to the length of the list never runs out. -/
def stripTagsFuel : Nat → List Char → List Char
  | 0, cs => cs
  | _ + 1, [] => []
  | fuel + 1, c :: rest =>
    if c == '<' then
      match dropThroughGt rest with
      | some rest2 => stripTagsFuel fuel rest2
      | none => c :: stripTagsFuel fuel rest
    else
      c :: stripTagsFuel fuel rest

/-- content.replace of the tag regex by the empty string, globally. -/
def stripTags (cs : List Char) : List Char :=
  stripTagsFuel cs.length cs

/-- generateExcerpt of backend/models/Blog.js: strip tags from the content;
if the plain text is longer than 300 characters take its first 297
characters and append three dots, otherwise keep it whole. -/
def generateExcerpt (content : String) : String :=
  let plainText := stripTags content.data
  if plainText.length > 300 then String.mk (plainText.take 297) ++ "..."
  else String.mk plainText

/-- The pre-save hook of backend/models/Blog.js: when the content path is
modified, recompute readTime with calculateReadTime and excerpt with
generateExcerpt; otherwise leave the document as it is. -/
def blogPreSave (b : Blog) (contentModified : Bool) : Blog :=
  if contentModified then
    { b with readTime := calculateReadTime b.content
             excerpt := generateExcerpt b.content }
  else b

/-- Reading of the claim words for the readTime derivation: the number of
whitespace-separated tokens of the content, a token being a nonempty maximal
chunk between whitespace runs. -/
def specTokenCount (s : String) : Nat :=
  ((jsSplitWS s.data).filter (fun p => !p.isEmpty)).length

/-- Reading of the claim words for the excerpt derivation: the content with
tags stripped, truncated to its first 297 characters followed by three dots
when the stripped text is longer than 300 characters, the full stripped
text otherwise. -/
def specExcerpt (content : String) : String :=
  let stripped := stripTags content.data
  if 300 < stripped.length then String.mk (stripped.take 297) ++ "..."
  else String.mk stripped

/-- GET /api/blogs/:id on a found blog: when the blog is not published or
not public, an anonymous requester, and an authenticated requester who is
neither the author nor an admin, receive 404 and the blog is untouched;
every other request increments the view counter, saves, and receives 200. -/
def getBlogDetailRoute (b : Blog) (requester : Option User) : Nat × Blog :=
  if b.status ≠ BlogStatus.published ∨ b.isPublic = false then
    match requester with
    | none => (404, b)
    | some u =>
      if u.id ≠ b.author ∧ u.role ≠ Role.admin then (404, b)
      else (200, { b with views := b.views + 1 })
  else (200, { b with views := b.views + 1 })

/-- The filter object GET /api/blogs builds: status published and isPublic
true always, plus the optional category, tag and author narrowing. -/
def blogListFilter (category tag : Option String) (author : Option Nat)
    (b : Blog) : Bool :=
  decide (b.status = BlogStatus.published) && b.isPublic
    && (match category with | none => true | some cat => decide (b.category = cat))
    && (match tag with | none => true | some t => b.tags.contains t)
    && (match author with | none => true | some a => decide (b.author = a))

/-- GET /api/blogs with sort newest: filter, sort by createdAt descending,
skip (page - 1) * limit, take limit, and attach the pagination object built
from the total count of matching documents. -/
def getBlogsResponse (bs : List Blog) (category tag : Option String)
    (author : Option Nat) (page limit : Nat) : List Blog × Pagination :=
  let filtered := bs.filter (blogListFilter category tag author)
  let sorted := filtered.mergeSort (fun x y => decide (y.createdAt ≤ x.createdAt))
  ((sorted.drop ((page - 1) * limit)).take limit,
   mkPagination page limit filtered.length)

/-- The allowed category enum of the Blog schema and the create and update
validators. -/
def validCategories : List String :=
  ["Technology", "Lifestyle", "Travel", "Food", "Health", "Business",
   "Education", "Entertainment", "Other"]

/-- The request body of PUT /api/blogs/:id, one optional entry per field of
the update whitelist (seo omitted as in the Blog record). -/
structure BlogUpdate where
  title : Option String
  content : Option String
  excerpt : Option String
  tags : Option (List String)
  category : Option String
  featuredImage : Option String
  status : Option BlogStatus
  isPublic : Option Bool
deriving DecidableEq

/-- The express validators of PUT /api/blogs/:id: optional title of length
at most 200 and optional category from the enum. -/
def validBlogUpdate (r : BlogUpdate) : Bool :=
  (match r.title with | none => true | some t => decide (t.length ≤ 200))
    && (match r.category with | none => true | some c => validCategories.contains c)

/-- The whitelist loop of PUT /api/blogs/:id: each field present in the body
overwrites the document field. -/
def applyBlogUpdate (b : Blog) (r : BlogUpdate) : Blog :=
  { b with title := r.title.getD b.title
           content := r.content.getD b.content
           excerpt := r.excerpt.getD b.excerpt
           tags := r.tags.getD b.tags
           category := r.category.getD b.category
           featuredImage := r.featuredImage.getD b.featuredImage
           status := r.status.getD b.status
           isPublic := r.isPublic.getD b.isPublic }

/-- Whether the update marks the content path modified: a content value is
present in the body and differs from the stored one (the ODM marks a path
modified only when the assigned value differs). -/
def blogUpdateModifiesContent (b : Blog) (r : BlogUpdate) : Bool :=
  match r.content with
  | none => false
  | some c => decide (c ≠ b.content)

/-- PUT /api/blogs/:id on a found blog: validation failure gives 400; a
requester who is neither the author nor an admin gets 403 and the blog is
unchanged; otherwise the whitelisted fields are applied and the save runs
the pre-save hook. -/
def putBlogRoute (b : Blog) (u : User) (r : BlogUpdate) : Nat × Blog :=
  if ¬ validBlogUpdate r then (400, b)
  else if b.author ≠ u.id ∧ u.role ≠ Role.admin then (403, b)
  else (200, blogPreSave (applyBlogUpdate b r) (blogUpdateModifiesContent b r))

/-- DELETE /api/blogs/:id: 404 when no blog has the id; 403 leaving the
store unchanged when the requester is neither the author nor an admin;
otherwise findByIdAndDelete removes the document. -/
def deleteBlogRoute (bs : List Blog) (bid : Nat) (u : User) : Nat × List Blog :=
  match bs.find? (fun b => b.id == bid) with
  | none => (404, bs)
  | some b =>
    if b.author ≠ u.id ∧ u.role ≠ Role.admin then (403, bs)
    else (200, bs.filter (fun b2 => decide (b2.id ≠ bid)))

/-- The express validators shared by POST and PUT of /api/comments: content
nonempty and of length at most 1000. -/
def validCommentContent (content : String) : Bool :=
  decide (content ≠ "") && decide (content.length ≤ 1000)

/-- Modelled from the spec: markAsEdited of the Comment model, whose file is
absent from the sources; the spec says edited state is tracked via a flag. -/
def markAsEdited (c : Comment) : Comment :=
  { c with isEdited := true }

/-- Modelled from the spec: softDelete of the Comment model, whose file is
absent from the sources; the spec says soft-delete sets the isDeleted flag
rather than physically removing the document. -/
def softDelete (c : Comment) : Comment :=
  { c with isDeleted := true }

/-- PUT /api/comments/:id on a found comment: validation failure gives 400;
a requester other than the author gets 403 and the comment is unchanged
(there is no admin escape on this route); the author gets the new content
stored and the comment marked edited. -/
def putCommentRoute (c : Comment) (u : User) (newContent : String) : Nat × Comment :=
  if ¬ validCommentContent newContent then (400, c)
  else if c.author ≠ u.id then (403, c)
  else (200, markAsEdited { c with content := newContent })

/-- DELETE /api/comments/:id on a found comment: a requester who is neither
the author nor an admin gets 403 and the comment is unchanged; otherwise
the comment is soft-deleted. -/
def deleteCommentRoute (c : Comment) (u : User) : Nat × Comment :=
  if c.author ≠ u.id ∧ u.role ≠ Role.admin then (403, c)
  else (200, softDelete c)

/-- The document the comment-creation handler builds. -/
def newComment (uid bid : Nat) (content : String) (parent : Option Nat)
    (newId now : Nat) : Comment :=
  { id := newId, content := content, author := uid, blog := bid,
    parentComment := parent, replies := [], likes := [],
    isDeleted := false, isEdited := false, createdAt := now }

/-- findByIdAndUpdate pushing the new comment id onto the replies array of
the parent comment. -/
def addReplyTo (cs : List Comment) (pid newId : Nat) : List Comment :=
  cs.map (fun c => if c.id = pid then { c with replies := c.replies ++ [newId] } else c)

/-- findByIdAndUpdate pushing the new comment id onto the comments array of
the blog. -/
def addCommentToBlog (bs : List Blog) (bid cid : Nat) : List Blog :=
  bs.map (fun b => if b.id = bid then { b with comments := b.comments ++ [cid] } else b)

/-- POST /api/comments: 400 on invalid content or missing blog id, 404 when
the blog does not exist, 404 when a parent comment id is given and no
comment has that id (existence on any blog is all that is checked);
otherwise the comment is created, appended to the replies of the parent
when one was given, registered on the blog, and 201 is returned. -/
def postCommentRoute (bs : List Blog) (cs : List Comment) (uid : Nat)
    (content : String) (blogId : Option Nat) (parentCommentId : Option Nat)
    (newId now : Nat) : Nat × List Comment × List Blog :=
  if ¬ (validCommentContent content && blogId.isSome) then (400, cs, bs)
  else
    match blogId with
    | none => (400, cs, bs)
    | some bid =>
      match bs.find? (fun b => b.id == bid) with
      | none => (404, cs, bs)
      | some _ =>
        match parentCommentId with
        | some pid =>
          match cs.find? (fun c => c.id == pid) with
          | none => (404, cs, bs)
          | some _ =>
            (201, addReplyTo cs pid newId ++ [newComment uid bid content (some pid) newId now],
             addCommentToBlog bs bid newId)
        | none =>
          (201, cs ++ [newComment uid bid content none newId now],
           addCommentToBlog bs bid newId)

/-- GET /api/comments/blog/:blogId: top-level comments of the blog that are
not soft-deleted, sorted by createdAt descending, paginated, with the
pagination object over the total count of matching documents. -/
def listBlogCommentsResponse (cs : List Comment) (blogId : Nat)
    (page limit : Nat) : List Comment × Pagination :=
  let filtered := cs.filter (fun c =>
    decide (c.blog = blogId) && decide (c.parentComment = none) && !c.isDeleted)
  let sorted := filtered.mergeSort (fun x y => decide (y.createdAt ≤ x.createdAt))
  ((sorted.drop ((page - 1) * limit)).take limit,
   mkPagination page limit filtered.length)

/-- The populate step of the blog-comments listing: resolve the reply
references of a comment against the comment store and keep only the replies
that are not soft-deleted (the match clause of the populate). -/
def populatedReplies (cs : List Comment) (c : Comment) : List Comment :=
  (c.replies.filterMap (fun i => cs.find? (fun x => x.id == i))).filter
    (fun r => !r.isDeleted)

/-- GET /api/comments/user/:userId: comments of the author that are not
soft-deleted, sorted by createdAt descending, paginated. -/
def listUserCommentsResponse (cs : List Comment) (uid : Nat)
    (page limit : Nat) : List Comment × Pagination :=
  let filtered := cs.filter (fun c => decide (c.author = uid) && !c.isDeleted)
  let sorted := filtered.mergeSort (fun x y => decide (y.createdAt ≤ x.createdAt))
  ((sorted.drop ((page - 1) * limit)).take limit,
   mkPagination page limit filtered.length)

/-- POST /api/users/:id/follow on a found target: 400 on a self-follow;
otherwise the handler reads isFollowing from the membership of the target
in the following array of the requester, filters both arrays on an
unfollow, pushes onto both on a follow, saves both users and answers with
the negated isFollowing. -/
def followRoute (u v : User) : Nat × User × User × Option Bool :=
  if u.id = v.id then (400, u, v, none)
  else if u.following.contains v.id then
    (200,
     { u with following := u.following.filter (fun i => decide (i ≠ v.id)) },
     { v with followers := v.followers.filter (fun i => decide (i ≠ u.id)) },
     some false)
  else
    (200,
     { u with following := u.following ++ [v.id] },
     { v with followers := v.followers ++ [u.id] },
     some true)

/-- A user document with the given id and role and empty reference arrays. -/
def sampleUser (i : Nat) (r : Role) : User :=
  { id := i, role := r, following := [], followers := [] }

/-- A published public blog by author 1 used as base of the concrete
documents below. -/
def sampleBlog : Blog :=
  { id := 1, title := "t", content := "hello world", excerpt := "",
    author := 1, tags := [], category := "Other", featuredImage := "",
    status := BlogStatus.published, isPublic := true, likes := [], views := 0,
    readTime := 0, comments := [], createdAt := 0 }

/-- A blog liked by users 1 and 2, in that order. -/
def cexBlogLikes : Blog := { sampleBlog with likes := [1, 2] }

/-- The ordinary user with id 1. -/
def cexUser1 : User := sampleUser 1 Role.user

/-- A comment by author 2 on blog 1 with no likes. -/
def cexRoundComment : Comment := newComment 2 1 "c" none 20 0

/-- A draft version of the sample blog. -/
def cexDraftBlog : Blog := { sampleBlog with status := BlogStatus.draft }

/-- An admin with id 2, distinct from the sample author. -/
def cexAdmin2 : User := sampleUser 2 Role.admin

/-- An ordinary user with id 3, distinct from the sample author. -/
def cexUser3 : User := sampleUser 3 Role.user

/-- A comment authored by user 1 on blog 1 with id 10. -/
def cexComment : Comment := newComment 1 1 "c" none 10 0

/-- An admin with id 9, not the author of cexComment. -/
def cexAdmin9 : User := sampleUser 9 Role.admin

/-- A second blog, with id 2. -/
def cexBlogB : Blog := { sampleBlog with id := 2 }

/-- A comment with id 10 that lives on blog 2, by author 7. -/
def cexParentOnB : Comment := newComment 7 2 "p" none 10 0

/-- A blog whose content is a single space character. -/
def cexWhitespaceBlog : Blog := { sampleBlog with content := " " }

/-- The soft-deleted state of cexComment. -/
def cexDeletedComment : Comment := { cexComment with isDeleted := true }

end BlogApp

namespace BlogApp

theorem eraseIdx_of_findIdx?_eq (a : Nat) :
    ∀ (l : List Nat) (i : Nat), l.findIdx? (fun x => x == a) = some i →
      l.eraseIdx i = l.erase a := by
  intro l
  induction l with
  | nil => intro i h; simp [List.findIdx?] at h
  | cons b t ih =>
    intro i h
    rw [List.findIdx?_cons] at h
    by_cases hb : b = a
    · simp [hb] at h
      subst h
      simp [List.eraseIdx, List.erase_cons, hb]
    · have hba : (b == a) = false := by simp [hb]
      simp [hba] at h
      obtain ⟨j, hj, hji⟩ := h
      subst hji
      simp [List.eraseIdx, List.erase_cons, hba, ih j hj]

theorem findIdx?_eq_none_of_not_mem {a : Nat} {l : List Nat} (h : a ∉ l) :
    l.findIdx? (fun x => x == a) = none := by
  rw [List.findIdx?_eq_none_iff]
  intro x hx
  simp only [beq_eq_false_iff_ne, ne_eq]
  intro hxa
  exact h (hxa ▸ hx)

theorem mem_of_findIdx?_eq_some {a : Nat} {l : List Nat} {i : Nat}
    (h : l.findIdx? (fun x => x == a) = some i) : a ∈ l := by
  by_contra hmem
  rw [findIdx?_eq_none_of_not_mem hmem] at h
  exact Option.noConfusion h

theorem likeToggle_eq (l : List Nat) (a : Nat) :
    likeToggle l a = if a ∈ l then l.erase a else l ++ [a] := by
  unfold likeToggle
  cases h : l.findIdx? (fun x => x == a) with
  | none =>
    have : a ∉ l := by
      intro hmem
      rw [List.findIdx?_eq_none_iff] at h
      have := h a hmem
      simp at this
    simp [this]
  | some i =>
    have hmem := mem_of_findIdx?_eq_some h
    simp [hmem, eraseIdx_of_findIdx?_eq a l i h]

theorem likeToggle_nodup {l : List Nat} (a : Nat) (h : l.Nodup) :
    (likeToggle l a).Nodup := by
  rw [likeToggle_eq]
  by_cases hmem : a ∈ l
  · rw [if_pos hmem]
    exact h.erase a
  · rw [if_neg hmem, List.nodup_append]
    refine ⟨h, List.nodup_singleton a, ?_⟩
    intro x hx hx2
    simp only [List.mem_singleton] at hx2
    subst hx2
    exact hmem hx

theorem likeToggle_roundtrip {l : List Nat} {a : Nat} (h : l.count a ≤ 1) :
    (likeToggle (likeToggle l a) a).Perm l := by
  by_cases hmem : a ∈ l
  · have h1 : likeToggle l a = l.erase a := by
      rw [likeToggle_eq, if_pos hmem]
    have hcount : l.count a = 1 :=
      Nat.le_antisymm h (List.count_pos_iff.2 hmem)
    have herase : (l.erase a).count a = 0 := by
      rw [List.count_erase_self, hcount]
    have hnot : a ∉ l.erase a := List.count_eq_zero.1 herase
    have h2 : likeToggle (l.erase a) a = l.erase a ++ [a] := by
      rw [likeToggle_eq, if_neg hnot]
    rw [h1, h2]
    exact (List.perm_append_singleton a (l.erase a)).trans
      (List.perm_cons_erase hmem).symm
  · have h1 : likeToggle l a = l ++ [a] := by
      rw [likeToggle_eq, if_neg hmem]
    have hmem2 : a ∈ l ++ [a] := by simp
    have h2 : likeToggle (l ++ [a]) a = (l ++ [a]).erase a := by
      rw [likeToggle_eq, if_pos hmem2]
    rw [h1, h2, List.erase_append_right _ hmem]
    simp

theorem postBlogLikeRoute_likes (b : Blog) (u : User) :
    (postBlogLikeRoute b u).1.likes = likeToggle b.likes u.id := by
  unfold postBlogLikeRoute likeToggle
  cases h : b.likes.findIdx? (fun i => i == u.id) <;> simp

theorem postCommentLikeRoute_likes (c : Comment) (u : User) :
    (postCommentLikeRoute c u).1.likes = likeToggle c.likes u.id := by
  unfold postCommentLikeRoute likeToggle
  cases h : c.likes.findIdx? (fun i => i == u.id) <;> simp

theorem postBlogLikeRoute_likeCount (b : Blog) (u : User) :
    (postBlogLikeRoute b u).2.likeCount = some (likeToggle b.likes u.id).length := by
  unfold postBlogLikeRoute likeToggle
  cases h : b.likes.findIdx? (fun i => i == u.id) <;> simp

theorem postCommentLikeRoute_likeCount (c : Comment) (u : User) :
    (postCommentLikeRoute c u).2.likeCount = some (likeToggle c.likes u.id).length := by
  unfold postCommentLikeRoute likeToggle
  cases h : c.likes.findIdx? (fun i => i == u.id) <;> simp

/-- C1, counterexample: the claim says two successive like toggles leave the
likes array equal to its original value; on the blog liked by 1 then 2, user
1 toggling twice turns the array from 1, 2 into 2, 1, which differs. -/
theorem C1_counterexample :
    ((postBlogLikeRoute (postBlogLikeRoute cexBlogLikes cexUser1).1 cexUser1).1).likes
      ≠ cexBlogLikes.likes := by decide

/-- C1, amended: on a blog and a comment whose likes arrays hold the user at
most once, toggling the like twice in succession leaves the likes array a
permutation of its original value, and the second response reports the
original likeCount; the array itself is only restored up to order. -/
theorem C1_like_toggle_roundtrip (b : Blog) (c : Comment) (u : User)
    (hb : b.likes.count u.id ≤ 1) (hc : c.likes.count u.id ≤ 1) :
    ((postBlogLikeRoute (postBlogLikeRoute b u).1 u).1.likes).Perm b.likes
    ∧ (postBlogLikeRoute (postBlogLikeRoute b u).1 u).2.likeCount
        = some b.likes.length
    ∧ ((postCommentLikeRoute (postCommentLikeRoute c u).1 u).1.likes).Perm c.likes
    ∧ (postCommentLikeRoute (postCommentLikeRoute c u).1 u).2.likeCount
        = some c.likes.length := by
  have hpb : (likeToggle (likeToggle b.likes u.id) u.id).Perm b.likes :=
    likeToggle_roundtrip hb
  have hpc : (likeToggle (likeToggle c.likes u.id) u.id).Perm c.likes :=
    likeToggle_roundtrip hc
  refine ⟨?_, ?_, ?_, ?_⟩
  · rw [postBlogLikeRoute_likes, postBlogLikeRoute_likes]
    exact hpb
  · rw [postBlogLikeRoute_likeCount, postBlogLikeRoute_likes]
    exact congrArg some hpb.length_eq
  · rw [postCommentLikeRoute_likes, postCommentLikeRoute_likes]
    exact hpc
  · rw [postCommentLikeRoute_likeCount, postCommentLikeRoute_likes]
    exact congrArg some hpc.length_eq

/-- C1, witness: the amended round trip evaluated on the concrete liked blog
and the concrete comment for user 1. -/
theorem C1_witness :
    ((postBlogLikeRoute (postBlogLikeRoute cexBlogLikes cexUser1).1 cexUser1).1.likes).Perm
      cexBlogLikes.likes :=
  (C1_like_toggle_roundtrip cexBlogLikes cexRoundComment cexUser1
    (by decide) (by decide)).1

/-- C5: a like toggle on a blog and on a comment preserves the property that
the likes array has no duplicate entries. -/
theorem C5_like_nodup (b : Blog) (c : Comment) (u : User)
    (hb : b.likes.Nodup) (hc : c.likes.Nodup) :
    ((postBlogLikeRoute b u).1.likes).Nodup
    ∧ ((postCommentLikeRoute c u).1.likes).Nodup := by
  rw [postBlogLikeRoute_likes, postCommentLikeRoute_likes]
  exact ⟨likeToggle_nodup u.id hb, likeToggle_nodup u.id hc⟩

/-- C5, witness: duplicate freedom is preserved on the concrete liked blog
and comment for user 1. -/
theorem C5_witness :
    ((postBlogLikeRoute cexBlogLikes cexUser1).1.likes).Nodup :=
  (C5_like_nodup cexBlogLikes cexRoundComment cexUser1 (by decide) (by decide)).1

/-- C10: DELETE of a blog like by a user whose id is absent from the likes
array answers 400 with message Blog is not liked and changes nothing; when
the id is present the route erases its first occurrence, shortening the
array by one, and answers with the new likeCount and isLiked false. -/
theorem C10_delete_like (b : Blog) (u : User) :
    (u.id ∉ b.likes →
      deleteBlogLikeRoute b u
        = (b, { status := 400, message := "Blog is not liked",
                likeCount := none, isLiked := none }))
    ∧ (u.id ∈ b.likes →
      (deleteBlogLikeRoute b u).1.likes = b.likes.erase u.id
      ∧ (deleteBlogLikeRoute b u).1.likes.length + 1 = b.likes.length
      ∧ (deleteBlogLikeRoute b u).2
          = { status := 200, message := "Blog unliked",
              likeCount := some (b.likes.erase u.id).length,
              isLiked := some false }) := by
  constructor
  · intro h
    unfold deleteBlogLikeRoute
    rw [findIdx?_eq_none_of_not_mem h]
  · intro h
    cases hfi : b.likes.findIdx? (fun x => x == u.id) with
    | none =>
      rw [List.findIdx?_eq_none_iff] at hfi
      have := hfi u.id h
      simp at this
    | some i =>
      have he := eraseIdx_of_findIdx?_eq u.id b.likes i hfi
      have hlen := List.length_erase_of_mem h
      have hpos : 0 < b.likes.length := List.length_pos_of_mem h
      unfold deleteBlogLikeRoute
      rw [hfi]
      refine ⟨by simp [he], ?_, by simp [he]⟩
      simp only [he, hlen]
      omega

/-- C10, witness: the present-id branch evaluated on the concrete liked blog
for user 1. -/
theorem C10_witness :
    (deleteBlogLikeRoute cexBlogLikes cexUser1).1.likes
      = cexBlogLikes.likes.erase cexUser1.id :=
  ((C10_delete_like cexBlogLikes cexUser1).2 (by decide)).1

theorem mem_of_mem_paged {α : Type} {l : List α} {le : α → α → Bool}
    {k n : Nat} {x : α} (hx : x ∈ ((l.mergeSort le).drop k).take n) : x ∈ l := by
  have h1 := List.mem_of_mem_take hx
  have h2 := List.mem_of_mem_drop h1
  exact ((List.mergeSort_perm l le).mem_iff).1 h2

/-- C2, counterexample: the claim says every requester who is not the author
sees a blog only when it is published and public; the admin with id 2 is not
the author of the draft blog yet the detail route answers 200. -/
theorem C2_counterexample :
    (getBlogDetailRoute cexDraftBlog (some cexAdmin2)).1 = 200
    ∧ cexAdmin2.id ≠ cexDraftBlog.author
    ∧ cexDraftBlog.status ≠ BlogStatus.published := by decide

/-- C2, amended: for requesters who are neither the author nor an admin,
and for anonymous requesters, the detail route answers 200 exactly when the
blog is published and public and otherwise answers 404 with the blog
untouched; the list endpoint only ever returns published public blogs. -/
theorem C2_visibility (b : Blog) (u : User)
    (h : u.id ≠ b.author ∧ u.role ≠ Role.admin) :
    ((getBlogDetailRoute b (some u)).1 = 200
      ↔ (b.status = BlogStatus.published ∧ b.isPublic = true))
    ∧ ((getBlogDetailRoute b none).1 = 200
      ↔ (b.status = BlogStatus.published ∧ b.isPublic = true))
    ∧ ((getBlogDetailRoute b (some u)).1 ≠ 200 →
        getBlogDetailRoute b (some u) = (404, b))
    ∧ ((getBlogDetailRoute b none).1 ≠ 200 → getBlogDetailRoute b none = (404, b))
    ∧ (∀ (bs : List Blog) (category tag : Option String) (author : Option Nat)
        (page limit : Nat),
        ∀ x ∈ (getBlogsResponse bs category tag author page limit).1,
          x.status = BlogStatus.published ∧ x.isPublic = true) := by
  have hgate1 : getBlogDetailRoute b (some u)
      = if b.status ≠ BlogStatus.published ∨ b.isPublic = false then
          (if u.id ≠ b.author ∧ u.role ≠ Role.admin then (404, b)
           else (200, { b with views := b.views + 1 }))
        else (200, { b with views := b.views + 1 }) := rfl
  have hgate0 : getBlogDetailRoute b none
      = if b.status ≠ BlogStatus.published ∨ b.isPublic = false then (404, b)
        else (200, { b with views := b.views + 1 }) := rfl
  by_cases hp : b.status = BlogStatus.published ∧ b.isPublic = true
  · have hcond : ¬ (b.status ≠ BlogStatus.published ∨ b.isPublic = false) := by
      rcases hp with ⟨h1, h2⟩
      intro hor
      rcases hor with h3 | h3
      · exact h3 h1
      · rw [h2] at h3; exact Bool.noConfusion h3
    refine ⟨?_, ?_, ?_, ?_, ?_⟩
    · rw [hgate1, if_neg hcond]; simpa using hp
    · rw [hgate0, if_neg hcond]; simpa using hp
    · rw [hgate1, if_neg hcond]; intro hne; exact absurd rfl hne
    · rw [hgate0, if_neg hcond]; intro hne; exact absurd rfl hne
    · intro bs category tag author page limit x hx
      have hxf : x ∈ bs.filter (blogListFilter category tag author) :=
        mem_of_mem_paged hx
      have hxp := List.of_mem_filter hxf
      unfold blogListFilter at hxp
      simp only [Bool.and_eq_true, decide_eq_true_eq] at hxp
      exact ⟨hxp.1.1.1.1, hxp.1.1.1.2⟩
  · have hcond : b.status ≠ BlogStatus.published ∨ b.isPublic = false := by
      by_cases h1 : b.status = BlogStatus.published
      · right
        rcases Bool.eq_false_or_eq_true b.isPublic with h2 | h2
        · exact absurd ⟨h1, h2⟩ hp
        · exact h2
      · left; exact h1
    refine ⟨?_, ?_, ?_, ?_, ?_⟩
    · rw [hgate1, if_pos hcond, if_pos h]
      simpa using hp
    · rw [hgate0, if_pos hcond]
      simpa using hp
    · rw [hgate1, if_pos hcond, if_pos h]
      intro _; rfl
    · rw [hgate0, if_pos hcond]
      intro _; rfl
    · intro bs category tag author page limit x hx
      have hxf : x ∈ bs.filter (blogListFilter category tag author) :=
        mem_of_mem_paged hx
      have hxp := List.of_mem_filter hxf
      unfold blogListFilter at hxp
      simp only [Bool.and_eq_true, decide_eq_true_eq] at hxp
      exact ⟨hxp.1.1.1.1, hxp.1.1.1.2⟩

/-- C2, witness: on the published sample blog the non-author non-admin user
3 receives 200, through the amended equivalence. -/
theorem C2_witness :
    (getBlogDetailRoute sampleBlog (some cexUser3)).1 = 200
      ↔ (sampleBlog.status = BlogStatus.published ∧ sampleBlog.isPublic = true) :=
  (C2_visibility sampleBlog cexUser3 ⟨by decide, by decide⟩).1

/-- C3, counterexample: the claim says admins are not rejected by the
ownership check of the four update and delete routes; the comment update
route rejects the admin with id 9 on the comment authored by user 1 with
403, leaving the comment unchanged. -/
theorem C3_counterexample :
    putCommentRoute cexComment cexAdmin9 "hi" = (403, cexComment)
    ∧ cexAdmin9.role = Role.admin
    ∧ cexComment.author ≠ cexAdmin9.id
    ∧ validCommentContent "hi" = true := by decide

/-- C3, amended: with valid bodies, blog update, blog delete and comment
delete succeed exactly for the author or an admin and answer 403 leaving the
resource unchanged for everyone else, while comment update succeeds exactly
for the author, rejecting even admins with 403 and leaving the comment
unchanged. -/
theorem C3_ownership (c : Comment) (b : Blog) (bs : List Blog) (bid : Nat)
    (u : User) (s : String) (r : BlogUpdate)
    (hs : validCommentContent s = true) (hr : validBlogUpdate r = true)
    (hfind : bs.find? (fun x => x.id == bid) = some b) :
    putCommentRoute c u s
      = (if c.author = u.id then 200 else 403,
         if c.author = u.id then markAsEdited { c with content := s } else c)
    ∧ deleteCommentRoute c u
      = (if c.author = u.id ∨ u.role = Role.admin then 200 else 403,
         if c.author = u.id ∨ u.role = Role.admin then softDelete c else c)
    ∧ putBlogRoute b u r
      = (if b.author = u.id ∨ u.role = Role.admin then 200 else 403,
         if b.author = u.id ∨ u.role = Role.admin then
           blogPreSave (applyBlogUpdate b r) (blogUpdateModifiesContent b r)
         else b)
    ∧ deleteBlogRoute bs bid u
      = (if b.author = u.id ∨ u.role = Role.admin then 200 else 403,
         if b.author = u.id ∨ u.role = Role.admin then
           bs.filter (fun b2 => decide (b2.id ≠ bid))
         else bs) := by
  refine ⟨?_, ?_, ?_, ?_⟩
  · by_cases hau : c.author = u.id
    · simp [putCommentRoute, hs, hau]
    · simp [putCommentRoute, hs, hau]
  · by_cases h2 : c.author = u.id ∨ u.role = Role.admin
    · have hno : ¬ (c.author ≠ u.id ∧ u.role ≠ Role.admin) := by tauto
      simp [deleteCommentRoute, hno, h2]
    · have hyes : c.author ≠ u.id ∧ u.role ≠ Role.admin := by tauto
      simp [deleteCommentRoute, hyes, h2]
  · by_cases h2 : b.author = u.id ∨ u.role = Role.admin
    · have hno : ¬ (b.author ≠ u.id ∧ u.role ≠ Role.admin) := by tauto
      simp [putBlogRoute, hr, hno, h2]
    · have hyes : b.author ≠ u.id ∧ u.role ≠ Role.admin := by tauto
      simp [putBlogRoute, hr, hyes, h2]
  · by_cases h2 : b.author = u.id ∨ u.role = Role.admin
    · have hno : ¬ (b.author ≠ u.id ∧ u.role ≠ Role.admin) := by tauto
      simp [deleteBlogRoute, hfind, hno, h2]
    · have hyes : b.author ≠ u.id ∧ u.role ≠ Role.admin := by tauto
      simp [deleteBlogRoute, hfind, hyes, h2]

/-- C3, witness: the amended characterization of the comment update route
evaluated for the admin with id 9 on the comment of author 1, inside the
store holding only the sample blog. -/
theorem C3_witness :
    putCommentRoute cexComment cexAdmin9 "hi"
      = (if cexComment.author = cexAdmin9.id then 200 else 403,
         if cexComment.author = cexAdmin9.id then
           markAsEdited { cexComment with content := "hi" }
         else cexComment) :=
  (C3_ownership cexComment sampleBlog [sampleBlog] 1 cexAdmin9 "hi"
    { title := none, content := none, excerpt := none, tags := none,
      category := none, featuredImage := none, status := none, isPublic := none }
    (by decide) (by decide) (by decide)).1

/-- C4, counterexample: the claim says comment creation with a parent id
succeeds only when the parent is a comment on the same blog; posting to
blog 1 a reply whose parent with id 10 lives on blog 2 is accepted with
201 and creates the cross-blog reply. -/
theorem C4_counterexample :
    (postCommentRoute [sampleBlog, cexBlogB] [cexParentOnB] 5 "hello"
      (some 1) (some 10) 11 0).1 = 201
    ∧ cexParentOnB.id = 10
    ∧ cexParentOnB.blog = 2
    ∧ ((postCommentRoute [sampleBlog, cexBlogB] [cexParentOnB] 5 "hello"
        (some 1) (some 10) 11 0).2.1.find? (fun c0 => c0.id == 11))
        = some (newComment 5 1 "hello" (some 10) 11 0) := by decide

/-- C4, amended: with a valid body, comment creation answers 201 exactly
when the blog exists and the parent comment id, when given, names an
existing comment on any blog (the handler checks existence only, never that
the parent belongs to the same blog); on any rejection neither the comment
store nor the blog store changes. -/
theorem C4_parent_check (bs : List Blog) (cs : List Comment) (uid : Nat)
    (content : String) (bid : Nat) (pid : Option Nat) (newId now : Nat)
    (hc : validCommentContent content = true) :
    ((postCommentRoute bs cs uid content (some bid) pid newId now).1 = 201
      ↔ ((bs.find? (fun b => b.id == bid)).isSome
          ∧ (match pid with
             | none => True
             | some p => (cs.find? (fun c0 => c0.id == p)).isSome)))
    ∧ ((postCommentRoute bs cs uid content (some bid) pid newId now).1 ≠ 201 →
        (postCommentRoute bs cs uid content (some bid) pid newId now).2
          = (cs, bs)) := by
  cases hb : bs.find? (fun b => b.id == bid) with
  | none =>
    cases pid with
    | none => simp [postCommentRoute, hc, hb]
    | some p => simp [postCommentRoute, hc, hb]
  | some b0 =>
    cases pid with
    | none => simp [postCommentRoute, hc, hb]
    | some p =>
      cases hp : cs.find? (fun c0 => c0.id == p) with
      | none => simp [postCommentRoute, hc, hb, hp]
      | some c0 => simp [postCommentRoute, hc, hb, hp]

/-- C4, witness: the amended equivalence evaluated on the cross-blog
counterexample request. -/
theorem C4_witness :
    ((postCommentRoute [sampleBlog, cexBlogB] [cexParentOnB] 5 "hello"
      (some 1) (some 10) 11 0).1 = 201
      ↔ (([sampleBlog, cexBlogB].find? (fun b => b.id == 1)).isSome
          ∧ (match some 10 with
             | none => True
             | some p => ([cexParentOnB].find? (fun c0 => c0.id == p)).isSome))) :=
  (C4_parent_check [sampleBlog, cexBlogB] [cexParentOnB] 5 "hello" 1
    (some 10) 11 0 (by decide)).1

/-- C6, counterexample: the claim says readTime is the ceiling of the number
of whitespace-separated tokens over 200; on the blog whose content is a
single space there are no tokens, so the claim predicts 0, yet the hook
computes the split length 2 (two empty boundary pieces) and stores 1. -/
theorem C6_counterexample :
    (blogPreSave cexWhitespaceBlog true).readTime = 1
    ∧ (specTokenCount cexWhitespaceBlog.content + 199) / 200 = 0
    ∧ (blogPreSave cexWhitespaceBlog true).readTime
        ≠ (specTokenCount cexWhitespaceBlog.content + 199) / 200 := by decide

/-- C6, amended: when the content is modified the pre-save hook stores as
readTime the ceiling of (length of the whitespace split of the content,
counting the empty boundary pieces of a leading or trailing whitespace run,
divided by 200), and as excerpt the tag-stripped content truncated to 297
characters plus three dots when the stripped text is longer than 300
characters and the full stripped text otherwise; an unmodified save leaves
the document unchanged. -/
theorem C6_pre_save (b : Blog) :
    (blogPreSave b true).readTime = (jsWordCount b.content + 199) / 200
    ∧ jsWordCount b.content ≤ 200 * (blogPreSave b true).readTime
    ∧ 200 * (blogPreSave b true).readTime < jsWordCount b.content + 200
    ∧ (blogPreSave b true).excerpt = specExcerpt b.content
    ∧ (blogPreSave b true).content = b.content
    ∧ blogPreSave b false = b := by
  refine ⟨rfl, ?_, ?_, rfl, rfl, rfl⟩
  · show jsWordCount b.content ≤ 200 * ((jsWordCount b.content + 199) / 200)
    omega
  · show 200 * ((jsWordCount b.content + 199) / 200) < jsWordCount b.content + 200
    omega

/-- C7: a comment whose isDeleted flag is set (the state softDelete, called
by the comment delete route, produces) is excluded from the blog comment
listing both as a top-level comment and as a populated reply, and from the
user comment listing. -/
theorem C7_soft_delete_exclusion (cs : List Comment) (c : Comment)
    (blogId uid page limit : Nat) (h : c.isDeleted = true) :
    c ∉ (listBlogCommentsResponse cs blogId page limit).1
    ∧ (∀ t ∈ (listBlogCommentsResponse cs blogId page limit).1,
        c ∉ populatedReplies cs t)
    ∧ c ∉ (listUserCommentsResponse cs uid page limit).1
    ∧ (∀ c2 : Comment, (softDelete c2).isDeleted = true) := by
  refine ⟨?_, ?_, ?_, fun c2 => rfl⟩
  · intro hmem
    have hf : c ∈ cs.filter (fun c0 =>
        decide (c0.blog = blogId) && decide (c0.parentComment = none)
          && !c0.isDeleted) := mem_of_mem_paged hmem
    have hp := List.of_mem_filter hf
    rw [h] at hp
    simp at hp
  · intro t _ hmem
    unfold populatedReplies at hmem
    have hp := List.of_mem_filter hmem
    rw [h] at hp
    simp at hp
  · intro hmem
    have hf : c ∈ cs.filter (fun c0 => decide (c0.author = uid) && !c0.isDeleted) :=
      mem_of_mem_paged hmem
    have hp := List.of_mem_filter hf
    rw [h] at hp
    simp at hp

/-- C7, witness: the soft-deleted concrete comment is absent from the
listing of its own blog. -/
theorem C7_witness :
    cexDeletedComment ∉ (listBlogCommentsResponse [cexDeletedComment] 1 1 20).1 :=
  (C7_soft_delete_exclusion [cexDeletedComment] cexDeletedComment 1 1 1 20
    (by decide)).1

/-- C8: for distinct users with a mutually consistent follow relationship,
the follow route completes with 200, flips the membership of the target in
the following array of the requester, keeps both sides consistent, pushes
both references on a follow and removes both on an unfollow, and reports as
isFollowing exactly the post-call membership. -/
theorem C8_follow_toggle (u v : User) (hid : u.id ≠ v.id)
    (hsym : v.id ∈ u.following ↔ u.id ∈ v.followers) :
    (followRoute u v).1 = 200
    ∧ ((v.id ∈ (followRoute u v).2.1.following) ↔ ¬ v.id ∈ u.following)
    ∧ ((v.id ∈ (followRoute u v).2.1.following)
        ↔ (u.id ∈ (followRoute u v).2.2.1.followers))
    ∧ (v.id ∉ u.following →
        (followRoute u v).2.1.following = u.following ++ [v.id]
        ∧ (followRoute u v).2.2.1.followers = v.followers ++ [u.id])
    ∧ (v.id ∈ u.following →
        v.id ∉ (followRoute u v).2.1.following
        ∧ u.id ∉ (followRoute u v).2.2.1.followers)
    ∧ (followRoute u v).2.2.2
        = some (decide (v.id ∈ (followRoute u v).2.1.following)) := by
  by_cases hf : v.id ∈ u.following
  · have hcont : u.following.contains v.id = true := by
      simp [List.contains, hf]
    have hroute : followRoute u v
        = (200,
           { u with following := u.following.filter (fun i => decide (i ≠ v.id)) },
           { v with followers := v.followers.filter (fun i => decide (i ≠ u.id)) },
           some false) := by
      unfold followRoute
      rw [if_neg hid, if_pos hcont]
    rw [hroute]
    refine ⟨rfl, ?_, ?_, ?_, ?_, ?_⟩
    · simp [List.mem_filter, hf]
    · simp [List.mem_filter]
    · intro hnf; exact absurd hf hnf
    · intro _; constructor <;> simp [List.mem_filter]
    · simp [List.mem_filter]
  · have hcont : u.following.contains v.id = false := by
      simp [List.contains]
      intro hmem
      exact absurd hmem hf
    have hroute : followRoute u v
        = (200,
           { u with following := u.following ++ [v.id] },
           { v with followers := v.followers ++ [u.id] },
           some true) := by
      unfold followRoute
      rw [if_neg hid, hcont]
      simp
    rw [hroute]
    refine ⟨rfl, ?_, ?_, ?_, ?_, ?_⟩
    · simp [hf]
    · simp
    · intro _; exact ⟨rfl, rfl⟩
    · intro hmem; exact absurd hmem hf
    · simp

/-- C8, witness: the toggle evaluated for user 1 following user 3, both
with empty arrays. -/
theorem C8_witness :
    (followRoute (sampleUser 1 Role.user) (sampleUser 3 Role.user)).1 = 200 :=
  (C8_follow_toggle (sampleUser 1 Role.user) (sampleUser 3 Role.user)
    (by decide) (by decide)).1

/-- C9: for positive page and limit, the pagination object built by every
list handler has currentPage equal to page, totalPages characterized as the
exact ceiling of total over limit, hasNext exactly when page times limit is
below total, hasPrev exactly when page exceeds 1, and hasNext holds exactly
when currentPage is below totalPages. -/
theorem C9_pagination (page limit total : Nat) (hp : 1 ≤ page) (hl : 1 ≤ limit) :
    (mkPagination page limit total).currentPage = page
    ∧ total ≤ (mkPagination page limit total).totalPages * limit
    ∧ (mkPagination page limit total).totalPages * limit < total + limit
    ∧ ((mkPagination page limit total).hasNext = true ↔ page * limit < total)
    ∧ ((mkPagination page limit total).hasPrev = true ↔ 1 < page)
    ∧ ((mkPagination page limit total).hasNext = true
        ↔ (mkPagination page limit total).currentPage
            < (mkPagination page limit total).totalPages) := by
  have hdm := Nat.div_add_mod (total + limit - 1) limit
  have hmod : (total + limit - 1) % limit < limit := Nat.mod_lt _ (by omega)
  refine ⟨rfl, ?_, ?_, by simp [mkPagination], by simp [mkPagination], ?_⟩
  · show total ≤ (total + limit - 1) / limit * limit
    rw [Nat.mul_comm]
    generalize limit * ((total + limit - 1) / limit) = P at hdm ⊢
    omega
  · show (total + limit - 1) / limit * limit < total + limit
    rw [Nat.mul_comm]
    generalize limit * ((total + limit - 1) / limit) = P at hdm ⊢
    omega
  · show decide (page * limit < total) = true
      ↔ page < (total + limit - 1) / limit
    rw [decide_eq_true_iff]
    have h6 : page + 1 ≤ (total + limit - 1) / limit
        ↔ (page + 1) * limit ≤ total + limit - 1 :=
      Nat.le_div_iff_mul_le (by omega)
    rw [Nat.succ_mul] at h6
    generalize page * limit = A at h6 ⊢
    generalize (total + limit - 1) / limit = q at h6 ⊢
    omega

/-- C9, witness: the pagination properties evaluated at page 2, limit 10,
total 35, where hasNext must agree with currentPage below totalPages. -/
theorem C9_witness :
    (mkPagination 2 10 35).hasNext = true
      ↔ (mkPagination 2 10 35).currentPage < (mkPagination 2 10 35).totalPages :=
  (C9_pagination 2 10 35 (by decide) (by decide)).2.2.2.2.2

end BlogApp
